import Mathlib

/-!
Verification of the lifecycle controller in src/src/qt/netboxwallet.cpp
(Netbox.Wallet). The worker-side `BitcoinCore` slots (initialize, shutdown,
restart), the controller-side `BitcoinApplication` handlers (initializeResult,
requestShutdown, handleRunawayException, createWindow) and the straight-line
structure of `main` are embedded as pure functions producing event traces.
Engine entry points that live outside this file (AppInit2, ResyncNeeded,
ShutdownRequested, RestartRequested, Interrupt, PrepareShutdown, Shutdown,
CExplicitNetCleanup::callCleanup, QProcess::startDetached) are opaque inputs:
each is a return value, a flag, or a thrown exception.
-/

namespace NetboxWallet

/-- Outcome of a call into an engine entry point: normal return with a value,
or a thrown exception carrying its formatted message (the C++ code catches
std::exception and unknown exceptions alike). -/
abbrev EngineCall (a : Type) := Except String a

/-- The engine environment read by the worker operations: the AppInit2 return
code, the ResyncNeeded / ShutdownRequested / RestartRequested flags, possible
exceptions from each engine call, and the current command line (read by
RPCConsole::buildParameterlist). -/
structure Engine where
  appInit2 : EngineCall Int
  resyncNeeded : Bool
  shutdownRequested : Bool
  restartRequested : Bool
  interruptExc : EngineCall Unit
  prepareShutdownExc : EngineCall Unit
  netCleanupExc : EngineCall Unit
  startDetachedExc : EngineCall Unit
  engineShutdownExc : EngineCall Unit
  cmdline : List String

/-- Observable actions of the worker (BitcoinCore) slots, in program order. -/
inductive CoreEvent
  | interrupt
  | prepareShutdown
  | netCleanup
  | relaunch (args : List String)
  | quit
  | engineShutdown
  | initializeResult (retval : Int)
  | runawayException (msg : String)
  deriving DecidableEq

/-- Worker object state: the one-shot restart latch. The C++ member
`bool execute_restart` is declared but never written by the constructor, so a
not-yet-written latch is modelled as `none`; a C++ read of the indeterminate
value is resolved by an explicit oracle bit at the reading call. -/
structure BitcoinCore where
  execute_restart : Option Bool
  deriving DecidableEq

/-- BitcoinCore::BitcoinCore() — the constructor body is empty: the latch
member stays uninitialized. -/
def mkBitcoinCore : BitcoinCore := { execute_restart := none }

/-- BitcoinCore::restart(args). Guarded by the one-shot latch; on entry the
latch is cleared, then Interrupt, PrepareShutdown, net cleanup, the detached
relaunch and the event-loop quit run inside the top-level try; a thrown
exception at any point is converted into a runawayException emission.
`oracle` resolves the read of the latch while it is still indeterminate. -/
def restartOp (eng : Engine) (args : List String) (c : BitcoinCore) (oracle : Bool) :
    BitcoinCore × List CoreEvent :=
  if c.execute_restart.getD oracle then
    let c1 : BitcoinCore := { execute_restart := some false }
    match eng.interruptExc with
    | Except.error e => (c1, [CoreEvent.runawayException e])
    | Except.ok _ =>
      match eng.prepareShutdownExc with
      | Except.error e => (c1, [CoreEvent.interrupt, CoreEvent.runawayException e])
      | Except.ok _ =>
        match eng.netCleanupExc with
        | Except.error e =>
          (c1, [CoreEvent.interrupt, CoreEvent.prepareShutdown, CoreEvent.runawayException e])
        | Except.ok _ =>
          match eng.startDetachedExc with
          | Except.error e =>
            (c1, [CoreEvent.interrupt, CoreEvent.prepareShutdown, CoreEvent.netCleanup,
              CoreEvent.runawayException e])
          | Except.ok _ =>
            (c1, [CoreEvent.interrupt, CoreEvent.prepareShutdown, CoreEvent.netCleanup,
              CoreEvent.relaunch args, CoreEvent.quit])
  else (c, [])

/-- Modelled from the spec: RPCConsole::buildParameterlist is defined outside
src/; per the spec the restart request carries the current command line with
the resync argument appended. -/
def buildParameterlist (baseArgs : List String) (arg : String) : List String :=
  baseArgs ++ [arg]

/-- BitcoinCore::initialize(): arms the restart latch first, then runs AppInit2
inside the top-level try; if ResyncNeeded and not ShutdownRequested it calls
restart with the -resync parameter list; if ResyncNeeded and ShutdownRequested
it does nothing further; otherwise it emits initializeResult with the AppInit2
return code. A thrown exception becomes a runawayException emission. The
armed latch overwrites whatever value the receiver `_c` held before. -/
def initializeOp (eng : Engine) (_c : BitcoinCore) : BitcoinCore × List CoreEvent :=
  let c1 : BitcoinCore := { execute_restart := some true }
  match eng.appInit2 with
  | Except.error e => (c1, [CoreEvent.runawayException e])
  | Except.ok rv =>
    if eng.resyncNeeded then
      if eng.shutdownRequested then (c1, [])
      else restartOp eng (buildParameterlist eng.cmdline "-resync") c1 false
    else (c1, [CoreEvent.initializeResult rv])

/-- BitcoinCore::shutdown(): returns immediately when RestartRequested;
otherwise Interrupt, the engine Shutdown, and the event-loop quit run inside
the top-level try, with exceptions converted to runawayException. -/
def shutdownOp (eng : Engine) : List CoreEvent :=
  if eng.restartRequested then []
  else
    match eng.interruptExc with
    | Except.error e => [CoreEvent.runawayException e]
    | Except.ok _ =>
      match eng.engineShutdownExc with
      | Except.error e => [CoreEvent.interrupt, CoreEvent.runawayException e]
      | Except.ok _ => [CoreEvent.interrupt, CoreEvent.engineShutdown, CoreEvent.quit]

/-- A request delivered to the worker's slot queue: an Initialize request or a
Restart request carrying its argument list. -/
inductive Request
  | initReq
  | restartReq (args : List String)
  deriving DecidableEq

/-- Whether a request is a Restart request. -/
def isRestartReq : Request → Bool
  | Request.restartReq _ => true
  | Request.initReq => false

/-- Deliver one request to the worker; the Bool component is the oracle used
when a restart reads a still-indeterminate latch. -/
def reqStep (eng : Engine) (c : BitcoinCore) : Request × Bool → BitcoinCore × List CoreEvent
  | (Request.initReq, _) => initializeOp eng c
  | (Request.restartReq args, o) => restartOp eng args c o

/-- Deliver a sequence of requests serially to the worker, concatenating the
emitted events. -/
def runRequests (eng : Engine) (c : BitcoinCore) :
    List (Request × Bool) → BitcoinCore × List CoreEvent
  | [] => (c, [])
  | r :: rs =>
    let s := reqStep eng c r
    let t := runRequests eng s.1 rs
    (t.1, s.2 ++ t.2)

/-- Whether an event is the detached-process relaunch. -/
def isRelaunch : CoreEvent → Bool
  | CoreEvent.relaunch _ => true
  | _ => false

/-- Number of detached-process relaunches in an event trace. -/
def countRelaunch (evs : List CoreEvent) : Nat := evs.countP isRelaunch

/-- Whether an event is a runawayException emission. -/
def isFault : CoreEvent → Bool
  | CoreEvent.runawayException _ => true
  | _ => false

/-- A worker event trace is fault-well-formed when any runawayException
emission is the final event of the trace: the top-level catch reported the
fault and nothing ran afterwards, and at most one fault is ever reported. -/
def topLevelCaught : List CoreEvent → Bool
  | [] => true
  | CoreEvent.runawayException _ :: rest => rest.isEmpty
  | _ :: rest => topLevelCaught rest

/-- Observable actions of the controller (BitcoinApplication) on the
interactive thread. -/
inductive UiEvent
  | processEvents
  | milliSleep (ms : Nat)
  | startThread
  | windowHide
  | setClientModelNull
  | stopPollTimer
  | removeAllWallets
  | deleteWalletModel
  | deleteClientModel
  | showShutdownWindow
  | emitRequestedShutdown
  | loadRootCAs
  | setOptionsModelOnPaymentServer
  | createClientModel
  | setClientModelOnWindow
  | createWalletModel
  | addWallet
  | setCurrentWallet
  | emitApplicationInitialized
  | windowShow
  | windowShowMinimized
  | emitSplashFinished
  | startShutdown
  | createMainWindow
  | createPollTimer
  | connectSignals
  | startPollTimer
  | showErrorMessage (msg : String)
  | exitProcess (code : Nat)
  deriving DecidableEq

/-- Controller state touched by BitcoinApplication::initializeResult: the
ShutdownGate (`shutdownAllowed`), the process return value, and whether the
client / wallet model objects have been constructed. -/
structure AppState where
  shutdownAllowed : Bool
  returnValue : Int
  clientModel : Bool
  walletModel : Bool
  deriving DecidableEq

/-- BitcoinApplication::BitcoinApplication — member initializer list sets
clientModel(0), walletModel(0), shutdownAllowed(true), returnValue(0). -/
def initialAppState : AppState :=
  { shutdownAllowed := true, returnValue := 0, clientModel := false, walletModel := false }

/-- BitcoinApplication::initializeResult(retval). Closes the gate; if a
shutdown was already requested it reopens the gate and returns; otherwise it
records `returnValue = retval ? 0 : 1`, and either builds and wires the models
and shows the window (success) or calls StartShutdown (failure), finally
reopening the gate. `sd` is the ShutdownRequested() flag, `pwallet` whether
pwalletMain is non-null, `minArg`/`hideArg` the -min and -hide options. -/
def appInitializeResult (sd pwallet minArg hideArg : Bool) (retval : Int)
    (st : AppState) : AppState × List UiEvent :=
  let st1 : AppState := { st with shutdownAllowed := false }
  if sd then ({ st1 with shutdownAllowed := true }, [])
  else
    let st2 : AppState := { st1 with returnValue := if retval = 0 then 1 else 0 }
    if retval = 0 then
      ({ st2 with shutdownAllowed := true }, [UiEvent.startShutdown])
    else
      let st3 : AppState := { st2 with clientModel := true, walletModel := pwallet }
      let walletEvents :=
        if pwallet then [UiEvent.createWalletModel, UiEvent.addWallet, UiEvent.setCurrentWallet]
        else []
      let showEvents :=
        if minArg then [UiEvent.windowShowMinimized]
        else if hideArg then [] else [UiEvent.windowShow]
      ({ st3 with shutdownAllowed := true },
        [UiEvent.loadRootCAs, UiEvent.setOptionsModelOnPaymentServer,
          UiEvent.createClientModel, UiEvent.setClientModelOnWindow] ++ walletEvents ++
          [UiEvent.emitApplicationInitialized] ++ showEvents ++ [UiEvent.emitSplashFinished])

/-- BitcoinApplication::getReturnValue(), read by main when app.exec() ends. -/
def getReturnValue (st : AppState) : Int := st.returnValue

/-- BitcoinApplication::handleRunawayException(message): shows the error
message box and calls exit(EXIT_FAILURE). -/
def appHandleRunawayException (msg : String) : List UiEvent :=
  [UiEvent.showErrorMessage msg, UiEvent.exitProcess 1]

/-- The body of the gate-wait loop in BitcoinApplication::requestShutdown,
run once per poll that finds the gate closed: processEvents() then
MilliSleep(100). `n` is the number of closed polls before the gate opens. -/
def waitLoopEvents : Nat → List UiEvent
  | 0 => []
  | n + 1 => UiEvent.processEvents :: UiEvent.milliSleep 100 :: waitLoopEvents n

/-- The actions of BitcoinApplication::requestShutdown after the gate-wait
loop, in source order: startThread, hide the window, detach the client model
from the window, stop the poll timer, remove the wallets, delete the wallet
model, delete the client model, show the shutdown window, and finally emit
requestedShutdown to the executor. -/
def shutdownActions : List UiEvent :=
  [UiEvent.startThread, UiEvent.windowHide, UiEvent.setClientModelNull,
    UiEvent.stopPollTimer, UiEvent.removeAllWallets, UiEvent.deleteWalletModel,
    UiEvent.deleteClientModel, UiEvent.showShutdownWindow, UiEvent.emitRequestedShutdown]

/-- Full event trace of BitcoinApplication::requestShutdown when the gate-wait
loop observes the gate closed exactly `n` times before it opens. -/
def requestShutdownEvents (n : Nat) : List UiEvent :=
  waitLoopEvents n ++ shutdownActions

/-- The ShutdownGate, polled by the wait loop, opens for the first time at
poll `n`: closed at every earlier poll and open at poll `n`. -/
def FirstOpen (gate : Nat → Bool) (n : Nat) : Prop :=
  gate n = true ∧ ∀ k, k < n → gate k = false

/-- BitcoinApplication::createWindow: constructs the BitcoinGUI window, then
the poll timer (with the window as parent), connects the signals, and starts
the timer at 200ms. -/
def createWindowEvents : List UiEvent :=
  [UiEvent.createMainWindow, UiEvent.createPollTimer, UiEvent.connectSignals,
    UiEvent.startPollTimer]

/-- Steps of main (Unix, wallet-enabled build), in source order. -/
inductive MainEvent
  | installFaultHandlers
  | setupEnvironment
  | parseParameters
  | createApp
  | initTranslations
  | showHelp
  | pickDataDirectory
  | readConfigFile
  | selectParams
  | ipcParseCommandLine
  | readMasternodeConfig
  | ipcSendCommandLine
  | probeShow
  | createPaymentServer
  | createOptionsModel
  | createSplashScreen
  | createWindow
  | startPollTimer
  | requestInitialize
  | startThread
  | execLoop
  | exitProcess (code : Nat)
  | returnCode (code : Nat)
  deriving DecidableEq

/-- Branch outcomes of main: whether -help or -version was passed, whether
Intro::pickDataDirectory succeeded, whether the data directory exists, whether
nbx.conf parsed, whether the network parameters were consistent, whether
masternode.conf parsed, whether PaymentServer::ipcSendCommandLine reached a
peer, whether the "nbx:show" single-instance probe reached a peer, and whether
the splash screen is enabled. -/
structure MainEnv where
  helpRequested : Bool
  pickDataDirOk : Bool
  dataDirExists : Bool
  configParseOk : Bool
  paramsOk : Bool
  masternodeOk : Bool
  ipcCommandLineHit : Bool
  probeShowHit : Bool
  splashShown : Bool

/-- Straight-line trace of main (Unix, wallet-enabled build): fault handlers,
environment setup, parameter parsing, application construction, translations,
the help/data-directory/config/params/masternode early returns, the IPC
command-line send, the "nbx:show" single-instance probe (both of which
exit(0) on success), then payment server, options model, optional splash,
window creation (which creates and starts the poll timer), requestInitialize
(which starts the worker thread) and the event loop. -/
def mainTrace (env : MainEnv) : List MainEvent :=
  [MainEvent.installFaultHandlers, MainEvent.setupEnvironment, MainEvent.parseParameters,
    MainEvent.createApp, MainEvent.initTranslations] ++
  (if env.helpRequested then [MainEvent.showHelp, MainEvent.returnCode 1] else
    [MainEvent.pickDataDirectory] ++
    (if !env.pickDataDirOk then [MainEvent.returnCode 0] else
      (if !env.dataDirExists then [MainEvent.returnCode 1] else
        [MainEvent.readConfigFile] ++
        (if !env.configParseOk then [MainEvent.returnCode 0] else
          [MainEvent.selectParams] ++
          (if !env.paramsOk then [MainEvent.returnCode 1] else
            [MainEvent.ipcParseCommandLine, MainEvent.initTranslations,
              MainEvent.readMasternodeConfig] ++
            (if !env.masternodeOk then [MainEvent.returnCode 0] else
              [MainEvent.ipcSendCommandLine] ++
              (if env.ipcCommandLineHit then [MainEvent.exitProcess 0] else
                [MainEvent.probeShow] ++
                (if env.probeShowHit then [MainEvent.exitProcess 0] else
                  [MainEvent.createPaymentServer, MainEvent.createOptionsModel] ++
                  (if env.splashShown then [MainEvent.createSplashScreen] else []) ++
                  [MainEvent.createWindow, MainEvent.startPollTimer,
                    MainEvent.requestInitialize, MainEvent.startThread,
                    MainEvent.execLoop]))))))))

/-- Whether a main step creates a window, starts the poll timer, or starts the
worker thread. -/
def isCreationEvent : MainEvent → Bool
  | MainEvent.createWindow => true
  | MainEvent.startPollTimer => true
  | MainEvent.requestInitialize => true
  | MainEvent.startThread => true
  | _ => false

/-- Scans a main trace: true when no window/timer/thread creation step occurs
before the single-instance probe (or before the trace ends without one). -/
def probeBeforeCreation : List MainEvent → Bool
  | [] => true
  | e :: rest =>
    if e = MainEvent.probeShow then true
    else if isCreationEvent e then false
    else probeBeforeCreation rest

/-- An engine run in which every call returns normally, AppInit2 returns 1
(success), no resync is needed and no shutdown or restart was requested. -/
def engOk : Engine :=
  { appInit2 := Except.ok 1, resyncNeeded := false, shutdownRequested := false,
    restartRequested := false, interruptExc := Except.ok (),
    prepareShutdownExc := Except.ok (), netCleanupExc := Except.ok (),
    startDetachedExc := Except.ok (), engineShutdownExc := Except.ok (),
    cmdline := [] }

/-- Like engOk, but the engine signals that a resync is needed. -/
def engResync : Engine := { engOk with resyncNeeded := true }

/-- Like engResync, but a shutdown has also been requested. -/
def engResyncSd : Engine := { engResync with shutdownRequested := true }

/-- Like engOk, but AppInit2 throws an exception with message "boom". -/
def engBoom : Engine := { engOk with appInit2 := Except.error "boom" }

/-- Environment in which main reaches the single-instance probe and the probe
finds a running peer. -/
def envProbeHit : MainEnv :=
  { helpRequested := false, pickDataDirOk := true, dataDirExists := true,
    configParseOk := true, paramsOk := true, masternodeOk := true,
    ipcCommandLineHit := false, probeShowHit := true, splashShown := false }

/-- Whether a controller event is the requestedShutdown emission. -/
def isEmitRequested : UiEvent → Bool
  | UiEvent.emitRequestedShutdown => true
  | _ => false

/-- Whether a controller event stops the poll timer. -/
def isStopTimer : UiEvent → Bool
  | UiEvent.stopPollTimer => true
  | _ => false

/-- Whether a controller event shows the main window or constructs a model
bundle member. -/
def isShowOrCreateModel : UiEvent → Bool
  | UiEvent.windowShow => true
  | UiEvent.windowShowMinimized => true
  | UiEvent.createClientModel => true
  | UiEvent.createWalletModel => true
  | _ => false

theorem restartOp_noentry (eng : Engine) (args : List String) (c : BitcoinCore) (o : Bool)
    (h : c.execute_restart.getD o = false) : restartOp eng args c o = (c, []) := by
  simp [restartOp, h]

theorem restartOp_skip (eng : Engine) (args : List String) (c : BitcoinCore) (o : Bool)
    (h : c.execute_restart = some false) : restartOp eng args c o = (c, []) := by
  apply restartOp_noentry
  simp [h]

theorem restartOp_entered (eng : Engine) (args : List String) (c : BitcoinCore) (o : Bool)
    (h : c.execute_restart.getD o = true) :
    (restartOp eng args c o).1 = { execute_restart := some false } ∧
    countRelaunch (restartOp eng args c o).2 ≤ 1 := by
  simp only [restartOp, h, if_true]
  rcases eng.interruptExc with e | u <;>
    rcases eng.prepareShutdownExc with e2 | u2 <;>
      rcases eng.netCleanupExc with e3 | u3 <;>
        rcases eng.startDetachedExc with e4 | u4 <;>
          simp [countRelaunch, isRelaunch, List.countP_cons]

theorem runRequests_dead (eng : Engine) :
    ∀ (reqs : List (Request × Bool)) (c : BitcoinCore),
      (∀ r ∈ reqs, isRestartReq r.1 = true) → c.execute_restart = some false →
      runRequests eng c reqs = (c, []) := by
  intro reqs
  induction reqs with
  | nil => intro c _ _; rfl
  | cons r rs ih =>
    intro c h hc
    obtain ⟨req, o⟩ := r
    have hr : isRestartReq req = true := h (req, o) (List.mem_cons_self _ _)
    cases req with
    | initReq => simp [isRestartReq] at hr
    | restartReq args =>
      have hs := restartOp_skip eng args c o hc
      have ht := ih c (fun x hx => h x (List.mem_cons_of_mem _ hx)) hc
      simp [runRequests, reqStep, hs, ht]

theorem relaunch_le_one (eng : Engine) :
    ∀ (reqs : List (Request × Bool)) (c : BitcoinCore),
      (∀ r ∈ reqs, isRestartReq r.1 = true) →
      countRelaunch (runRequests eng c reqs).2 ≤ 1 := by
  intro reqs
  induction reqs with
  | nil => intro c _; simp [runRequests, countRelaunch]
  | cons r rs ih =>
    intro c h
    obtain ⟨req, o⟩ := r
    have hr : isRestartReq req = true := h (req, o) (List.mem_cons_self _ _)
    have hrs : ∀ x ∈ rs, isRestartReq x.1 = true :=
      fun x hx => h x (List.mem_cons_of_mem _ hx)
    cases req with
    | initReq => simp [isRestartReq] at hr
    | restartReq args =>
      simp only [runRequests, reqStep]
      rw [countRelaunch, List.countP_append]
      cases hgd : c.execute_restart.getD o with
      | false =>
        rw [restartOp_noentry eng args c o hgd]
        simpa [countRelaunch] using ih c hrs
      | true =>
        obtain ⟨h1, h2⟩ := restartOp_entered eng args c o hgd
        have hd := runRequests_dead eng rs (restartOp eng args c o).1 hrs (by rw [h1])
        rw [hd]
        simpa [countRelaunch] using h2

theorem topLevelCaught_restartOp (eng : Engine) (args : List String) (c : BitcoinCore)
    (o : Bool) : topLevelCaught (restartOp eng args c o).2 = true := by
  unfold restartOp
  split
  · rcases eng.interruptExc with e | u <;>
      rcases eng.prepareShutdownExc with e2 | u2 <;>
        rcases eng.netCleanupExc with e3 | u3 <;>
          rcases eng.startDetachedExc with e4 | u4 <;> rfl
  · rfl

theorem topLevelCaught_initializeOp (eng : Engine) (c : BitcoinCore) :
    topLevelCaught (initializeOp eng c).2 = true := by
  unfold initializeOp
  rcases eng.appInit2 with e | rv
  · rfl
  · by_cases hres : eng.resyncNeeded <;> by_cases hsd : eng.shutdownRequested <;>
      first
        | (simp [hres, hsd, topLevelCaught_restartOp]; done)
        | (simp [hres, hsd]; rfl)

theorem topLevelCaught_shutdownOp (eng : Engine) :
    topLevelCaught (shutdownOp eng) = true := by
  unfold shutdownOp
  split
  · rfl
  · rcases eng.interruptExc with e | u <;>
      rcases eng.engineShutdownExc with e2 | u2 <;> rfl

theorem waitLoopEvents_countP_emit (n : Nat) :
    (waitLoopEvents n).countP isEmitRequested = 0 := by
  induction n with
  | zero => rfl
  | succ k ih => simp [waitLoopEvents, List.countP_cons, isEmitRequested, ih]

theorem waitLoopEvents_countP_stop (n : Nat) :
    (waitLoopEvents n).countP isStopTimer = 0 := by
  induction n with
  | zero => rfl
  | succ k ih => simp [waitLoopEvents, List.countP_cons, isStopTimer, ih]

/-- Claim C1: within one process run, over any sequence of Restart requests
delivered to the worker, the guarded relaunch action of BitcoinCore::restart
executes at most once, and every Restart request arriving after the latch has
been consumed is an exact no-op (no events, state unchanged). -/
theorem restart_at_most_once (eng : Engine) (reqs : List (Request × Bool))
    (h : ∀ r ∈ reqs, isRestartReq r.1 = true) :
    (∀ c, countRelaunch (runRequests eng c reqs).2 ≤ 1) ∧
    (∀ c, c.execute_restart = some false → runRequests eng c reqs = (c, [])) :=
  ⟨fun c => relaunch_le_one eng reqs c h, fun c hc => runRequests_dead eng reqs c h hc⟩

/-- Witness for C1: two consecutive Restart requests relaunch at most once. -/
theorem restart_at_most_once_witness :
    countRelaunch (runRequests engOk mkBitcoinCore
      [(Request.restartReq ["-a"], true), (Request.restartReq ["-b"], true)]).2 ≤ 1 :=
  (restart_at_most_once engOk
    [(Request.restartReq ["-a"], true), (Request.restartReq ["-b"], true)]
    (by decide)).1 mkBitcoinCore

/-- Counterexample for C2: when AppInit2 returns normally, resync is needed
and a shutdown has been requested, BitcoinCore::initialize emits nothing at
all — neither a restart nor any initializeResult — contradicting the claim
that "otherwise it emits initializeResult". -/
theorem initialize_resync_shutdown_counterexample :
    (initializeOp engResyncSd mkBitcoinCore).2 = [] := rfl

/-- Claim C2 (amended): on normal AppInit2 return, if resync is not needed,
exactly one initializeResult with the return code is emitted; if resync is
needed and shutdown was requested, nothing happens; if resync is needed and no
shutdown was requested, initialize behaves as restart on the armed latch with
the -resync parameter list, which (absent exceptions) relaunches exactly once
with that argument and emits no initializeResult. -/
theorem initialize_outcome_cases (eng : Engine) (c : BitcoinCore) (rv : Int)
    (h : eng.appInit2 = Except.ok rv) :
    (eng.resyncNeeded = false → (initializeOp eng c).2 = [CoreEvent.initializeResult rv]) ∧
    (eng.resyncNeeded = true → eng.shutdownRequested = true →
      (initializeOp eng c).2 = []) ∧
    (eng.resyncNeeded = true → eng.shutdownRequested = false →
      initializeOp eng c
        = restartOp eng (buildParameterlist eng.cmdline "-resync")
            { execute_restart := some true } false) ∧
    (eng.resyncNeeded = true → eng.shutdownRequested = false →
      eng.interruptExc = Except.ok () → eng.prepareShutdownExc = Except.ok () →
      eng.netCleanupExc = Except.ok () → eng.startDetachedExc = Except.ok () →
      (initializeOp eng c).2
        = [CoreEvent.interrupt, CoreEvent.prepareShutdown, CoreEvent.netCleanup,
            CoreEvent.relaunch (buildParameterlist eng.cmdline "-resync"),
            CoreEvent.quit]) := by
  refine ⟨?_, ?_, ?_, ?_⟩
  · intro hres
    simp [initializeOp, h, hres]
  · intro hres hsd
    simp [initializeOp, h, hres, hsd]
  · intro hres hsd
    simp [initializeOp, h, hres, hsd]
  · intro hres hsd h1 h2 h3 h4
    simp [initializeOp, restartOp, h, hres, hsd, h1, h2, h3, h4]

/-- Witness for C2 (amended): with no resync needed, exactly the
initializeResult outcome is emitted. -/
theorem initialize_outcome_cases_witness :
    (initializeOp engOk mkBitcoinCore).2 = [CoreEvent.initializeResult 1] :=
  (initialize_outcome_cases engOk mkBitcoinCore 1 rfl).1 rfl

/-- Claim C3: requestShutdown polls the gate, yielding one processEvents and
MilliSleep pair per closed poll; once the gate first opens the request is
never dropped: exactly one requestedShutdown emission occurs, as the final
action, and the gate is open at the poll that lets it through. -/
theorem requestShutdown_waits_then_forwards_once (gate : Nat → Bool) (n : Nat)
    (h : FirstOpen gate n) :
    (requestShutdownEvents n).countP isEmitRequested = 1 ∧
    (requestShutdownEvents n).getLast? = some UiEvent.emitRequestedShutdown ∧
    gate n = true ∧ (∀ k, k < n → gate k = false) := by
  obtain ⟨h1, h2⟩ := h
  refine ⟨?_, ?_, h1, h2⟩
  · rw [requestShutdownEvents, List.countP_append, waitLoopEvents_countP_emit]
    rfl
  · simp [requestShutdownEvents, shutdownActions, List.getLast?_append]

/-- Witness for C3 with a gate that opens at the third poll. -/
theorem requestShutdown_waits_then_forwards_once_witness :
    (requestShutdownEvents 2).countP isEmitRequested = 1 :=
  (requestShutdown_waits_then_forwards_once (fun k => k == 2) 2 ⟨rfl, by decide⟩).1

/-- Claim C4: on a failure return code (AppInit2 returned 0), initializeResult
never shows the window and never constructs a client or wallet model; when no
shutdown was already requested its only action is StartShutdown. -/
theorem initFailed_no_window_no_models (sd pwallet minArg hideArg : Bool)
    (st : AppState) :
    (appInitializeResult sd pwallet minArg hideArg 0 st).2
      = (if sd then [] else [UiEvent.startShutdown]) ∧
    (appInitializeResult sd pwallet minArg hideArg 0 st).1.clientModel = st.clientModel ∧
    (appInitializeResult sd pwallet minArg hideArg 0 st).1.walletModel = st.walletModel ∧
    (appInitializeResult sd pwallet minArg hideArg 0 st).2.countP isShowOrCreateModel
      = 0 := by
  cases sd <;>
    simp [appInitializeResult, isShowOrCreateModel, List.countP_cons, List.countP_nil]

/-- Claim C5: when the outcome is processed (no prior shutdown request), the
process return value recorded for main is exactly 0 on init success and 1 on
init failure. -/
theorem returnValue_mapping (pwallet minArg hideArg : Bool) (retval : Int)
    (st : AppState) :
    getReturnValue (appInitializeResult false pwallet minArg hideArg retval st).1
      = (if retval = 0 then 1 else 0) := by
  by_cases h0 : retval = 0 <;> simp [appInitializeResult, getReturnValue, h0]

/-- Counterexample for C6: in a run of main that reaches the single-instance
probe, data-directory initialization (Intro::pickDataDirectory) has already
executed before the probe — the probe does not run before directory
initialization as claimed. -/
theorem probe_after_datadir_counterexample :
    MainEvent.pickDataDirectory ∈ mainTrace envProbeHit ∧
    MainEvent.probeShow ∈ mainTrace envProbeHit ∧
    (mainTrace envProbeHit).indexOf MainEvent.pickDataDirectory
      < (mainTrace envProbeHit).indexOf MainEvent.probeShow := by decide

/-- Claim C6 (amended): in every run of main, no window, poll timer, or worker
thread is created before the single-instance probe; if the probe finds a peer
the process exits immediately (exitProcess 0 is the final step) and no window,
timer, or thread is ever created; and the probe runs after data-directory
initialization, whose position always precedes it. -/
theorem probe_before_window_thread :
    ∀ (b1 b2 b3 b4 b5 b6 b7 b8 b9 : Bool),
    probeBeforeCreation (mainTrace ⟨b1, b2, b3, b4, b5, b6, b7, b8, b9⟩) = true ∧
    (b8 = true →
      ((mainTrace ⟨b1, b2, b3, b4, b5, b6, b7, b8, b9⟩).all
        fun ev => !(isCreationEvent ev)) = true) ∧
    (b8 = true → MainEvent.probeShow ∈ mainTrace ⟨b1, b2, b3, b4, b5, b6, b7, b8, b9⟩ →
      (mainTrace ⟨b1, b2, b3, b4, b5, b6, b7, b8, b9⟩).getLast?
        = some (MainEvent.exitProcess 0)) ∧
    (MainEvent.probeShow ∈ mainTrace ⟨b1, b2, b3, b4, b5, b6, b7, b8, b9⟩ →
      MainEvent.pickDataDirectory ∈ mainTrace ⟨b1, b2, b3, b4, b5, b6, b7, b8, b9⟩ ∧
      (mainTrace ⟨b1, b2, b3, b4, b5, b6, b7, b8, b9⟩).indexOf MainEvent.pickDataDirectory
        < (mainTrace ⟨b1, b2, b3, b4, b5, b6, b7, b8, b9⟩).indexOf MainEvent.probeShow) := by
  decide

/-- Witness for C6 (amended): when the probe finds a peer, the run creates no
window, timer, or worker thread. -/
theorem probe_before_window_thread_witness :
    ((mainTrace envProbeHit).all fun ev => !(isCreationEvent ev)) = true :=
  (probe_before_window_thread false true true true true true false true false).2.1 rfl

/-- Counterexample for C7: with the gate already open, the first step of
requestShutdown is startThread, not stopping the poll timer, and hiding the
window precedes the timer stop — the timer is not stopped as the first step. -/
theorem pollTimer_stop_not_first_counterexample :
    (requestShutdownEvents 0).head? = some UiEvent.startThread ∧
    (requestShutdownEvents 0).indexOf UiEvent.windowHide
      < (requestShutdownEvents 0).indexOf UiEvent.stopPollTimer := by decide

/-- Claim C7 (amended): the poll timer is created and started only after the
main window is created; during requestShutdown it is stopped exactly once —
not as the first step, but after the window is hidden and the client model
detached, and before the models are destroyed and before the shutdown request
is forwarded to the executor. -/
theorem pollTimer_started_after_window_stopped_before_forward (n : Nat) :
    createWindowEvents.indexOf UiEvent.createMainWindow
      < createWindowEvents.indexOf UiEvent.startPollTimer ∧
    (waitLoopEvents n).countP isStopTimer = 0 ∧
    requestShutdownEvents n = waitLoopEvents n ++ shutdownActions ∧
    shutdownActions.countP isStopTimer = 1 ∧
    shutdownActions.indexOf UiEvent.windowHide
      < shutdownActions.indexOf UiEvent.stopPollTimer ∧
    shutdownActions.indexOf UiEvent.stopPollTimer
      < shutdownActions.indexOf UiEvent.deleteWalletModel ∧
    shutdownActions.indexOf UiEvent.stopPollTimer
      < shutdownActions.indexOf UiEvent.emitRequestedShutdown :=
  ⟨by decide, waitLoopEvents_countP_stop n, rfl, by decide, by decide, by decide, by decide⟩

/-- Claim C8: every exception raised inside the worker's initialize, shutdown
or restart is caught at the operation's top level: any runawayException
emission is the final event of the operation (nothing runs after it and no
second fault is reported), an AppInit2 exception is converted into exactly the
runawayException message, and only the controller's handleRunawayException
shows the error dialog and exits the process with failure status. -/
theorem worker_faults_converted (eng : Engine) (c : BitcoinCore) (args : List String)
    (o : Bool) (e : String) :
    topLevelCaught (initializeOp eng c).2 = true ∧
    topLevelCaught (shutdownOp eng) = true ∧
    topLevelCaught (restartOp eng args c o).2 = true ∧
    (eng.appInit2 = Except.error e →
      (initializeOp eng c).2 = [CoreEvent.runawayException e]) ∧
    appHandleRunawayException e = [UiEvent.showErrorMessage e, UiEvent.exitProcess 1] := by
  refine ⟨topLevelCaught_initializeOp eng c, topLevelCaught_shutdownOp eng,
    topLevelCaught_restartOp eng args c o, ?_, rfl⟩
  intro hai
  simp [initializeOp, hai]

/-- Witness for C8: an AppInit2 exception is reported as a single
runawayException and nothing else. -/
theorem worker_faults_converted_witness :
    (initializeOp engBoom mkBitcoinCore).2 = [CoreEvent.runawayException "boom"] :=
  (worker_faults_converted engBoom mkBitcoinCore [] false "boom").2.2.2.1 rfl

/-- Claim C9: the constructor leaves the restart latch uninitialized (none);
initialize overwrites it regardless of its prior value and arms it (it ends
armed whenever the resync-restart path is not taken); a restart reading the
uninitialized latch behaves exactly as if the latch held the arbitrary oracle
value, so such a run may or may not relaunch; and two initialize calls in one
process relaunch twice, so the at-most-once guarantee needs initialize to be
invoked at most once. -/
theorem restart_latch_armed_by_initialize_only :
    mkBitcoinCore.execute_restart = none ∧
    (∀ (eng : Engine) (c c2 : BitcoinCore), initializeOp eng c = initializeOp eng c2) ∧
    (∀ (eng : Engine) (c : BitcoinCore), eng.resyncNeeded = false →
      (initializeOp eng c).1.execute_restart = some true) ∧
    (∀ (eng : Engine) (args : List String) (o : Bool),
      (restartOp eng args mkBitcoinCore o).2
        = (restartOp eng args { execute_restart := some o } o).2) ∧
    countRelaunch (runRequests engResync mkBitcoinCore
      [(Request.initReq, false), (Request.initReq, false)]).2 = 2 ∧
    countRelaunch (restartOp engOk ["-x"] mkBitcoinCore true).2 = 1 ∧
    countRelaunch (restartOp engOk ["-x"] mkBitcoinCore false).2 = 0 := by
  refine ⟨rfl, fun _ _ _ => rfl, ?_, ?_, by decide, by decide, by decide⟩
  · intro eng c hres
    rcases hai : eng.appInit2 with e | rv <;> simp [initializeOp, hai, hres]
  · intro eng args o
    cases o <;> rfl

/-- Witness for C9: after initialize (no resync), the latch is armed. -/
theorem restart_latch_armed_by_initialize_only_witness :
    (initializeOp engOk mkBitcoinCore).1.execute_restart = some true :=
  restart_latch_armed_by_initialize_only.2.2.1 engOk mkBitcoinCore rfl

/-- Claim C10: when a shutdown has already been requested, initializeResult
reopens the gate and returns with every other state component unchanged and no
actions performed; starting from the constructor state, the recorded return
value stays 0 even for a failing return code. -/
theorem initializeResult_early_return_frame (pwallet minArg hideArg : Bool)
    (retval : Int) (st : AppState) :
    appInitializeResult true pwallet minArg hideArg retval st
      = ({ st with shutdownAllowed := true }, []) ∧
    getReturnValue
      (appInitializeResult true pwallet minArg hideArg retval initialAppState).1 = 0 := by
  obtain ⟨a, b, c, d⟩ := st
  exact ⟨rfl, rfl⟩

end NetboxWallet
